import Mathlib

/-!
# BLADE ingestion service: canonical items, query planner, transformer, dedup check

A shallow embedding of

* `database/models/blade_items.go`  (item model, classification rules),
* `server/utils/config.go`          (`LoadConfig`, `validateConfig`,
  `Config.GetDatabricksQuery`, `Config.IsBLADEDataType`),
* `server/blade_server/databricks.go` (`TransformToBLADEItem`),
* `server/blade_server/helpers.go`  (`CatalogUploader.CheckItemExists`,
  `BuildMetadata`).

Conventions of the embedding:

* a Go `string` is a Lean `String`, a Go `int`/`int64` is an `Int`;
* a Go `map[string]T` is an association list `List (String × T)` read with
  `List.lookup` (the comma-ok form is the `Option` it returns); a map without
  entries, nil or empty, is `[]`;
* a Go `interface{}` value is a `GoValue`;
* `fmt.Sprintf` with `%s` is string concatenation, `%d` is `Sprintf_d`;
* a `(T, error)` result is an `Except String T`, the string being the message;
* a `datatypes.JSON` value is the JSON document its bytes encode.
-/

namespace Blade

/-! ## Library values -/

/-- A dynamically typed Go value, as held in a `map[string]interface{}`.
The first six constructors are the kinds `encoding/json` decodes into an
`interface{}`; `unsupported err` is a value of a kind `json.Marshal` rejects
(a channel, a function, a complex number, a non-finite float), together with
the error text `encoding/json` reports for it, such as
`json: unsupported type: func()` or `json: unsupported value: NaN`. A number
is kept as an integer: the code never inspects a number. -/
inductive GoValue where
  | null : GoValue
  | bool (b : Bool) : GoValue
  | number (n : Int) : GoValue
  | str (s : String) : GoValue
  | arr (xs : List GoValue) : GoValue
  | obj (kvs : List (String × GoValue)) : GoValue
  | unsupported (err : String) : GoValue
  deriving Repr

/-- The `%d` verb of `fmt.Sprintf` on an integer: decimal digits, with a
leading minus sign for a negative number. -/
def Sprintf_d (n : Int) : String :=
  match n with
  | Int.ofNat m => Nat.repr m
  | Int.negSucc m => "-" ++ Nat.repr (m + 1)

mutual
/-- Whether `json.Marshal` accepts the value. -/
def GoValue.encodable : GoValue → Bool
  | .null => true
  | .bool _ => true
  | .number _ => true
  | .str _ => true
  | .arr xs => GoValue.encodableList xs
  | .obj kvs => GoValue.encodableFields kvs
  | .unsupported _ => false
/-- Whether `json.Marshal` accepts every element of a slice. -/
def GoValue.encodableList : List GoValue → Bool
  | [] => true
  | x :: xs => GoValue.encodable x && GoValue.encodableList xs
/-- Whether `json.Marshal` accepts every value of a map. -/
def GoValue.encodableFields : List (String × GoValue) → Bool
  | [] => true
  | (_, v) :: kvs => GoValue.encodable v && GoValue.encodableFields kvs
end

/-- A `datatypes.JSON` byte slice, up to the document it encodes: `empty`
is the nil or zero-length slice, `doc v` the bytes `json.Marshal` produced
for `v`, `invalid raw` bytes that are not a JSON text. -/
inductive JSON where
  | empty : JSON
  | doc (v : GoValue) : JSON
  | invalid (raw : String) : JSON
  deriving Repr

mutual
/-- The error `json.Marshal` reports on the value, if any: the encoder stops
at the first value it rejects. -/
def GoValue.marshalError : GoValue → Option String
  | .null => none
  | .bool _ => none
  | .number _ => none
  | .str _ => none
  | .arr xs => GoValue.marshalErrorList xs
  | .obj kvs =>
    match GoValue.marshalErrorFields kvs with
    | some (_, err) => some err
    | none => none
  | .unsupported err => some err
/-- The error `json.Marshal` reports on a slice: that of the first rejected
element, in index order. -/
def GoValue.marshalErrorList : List GoValue → Option String
  | [] => none
  | x :: xs =>
    match GoValue.marshalError x with
    | some err => some err
    | none => GoValue.marshalErrorList xs
/-- The error `json.Marshal` reports on a map, with the key it arises at.
The encoder visits the entries in sorted key order, so the error is that of
the rejected entry with the least key; keys are compared character by
character. -/
def GoValue.marshalErrorFields : List (String × GoValue) → Option (String × String)
  | [] => none
  | (k, v) :: kvs =>
    match GoValue.marshalError v, GoValue.marshalErrorFields kvs with
    | none, later => later
    | some err, none => some (k, err)
    | some err, some (k2, err2) =>
      if k2.data < k.data then some (k2, err2) else some (k, err)
end

/-- The library call `json.Marshal` on a `map[string]interface{}`: the bytes
of the JSON object of the map, or the error of the first value that cannot
be encoded. A map without entries is `[]`, nil or empty alike; its bytes
(`null` for the nil map, `{}` for the empty one) are both written
`.doc (.obj [])`, and both decode to a map without entries. -/
def json_Marshal (m : List (String × GoValue)) : Except String JSON :=
  match GoValue.marshalErrorFields m with
  | none => .ok (.doc (.obj m))
  | some (_, err) => .error err

/-- A reading of the clock (`time.Time`), given by the two observations the
code makes of it: `Unix()` and `Format(time.RFC3339)`. -/
structure Time where
  unix : Int
  rfc3339 : String
  deriving Repr, DecidableEq

/-- The zero `time.Time`. -/
def Time.zero : Time := { unix := -62135596800, rfc3339 := "0001-01-01T00:00:00Z" }

/-! ## `database/models/blade_items.go` -/

/-- The Go type `BLADEItemType`, a named string type. -/
abbrev BLADEItemType := String

def MaintenanceData : BLADEItemType := "maintenance"
def SortieData : BLADEItemType := "sortie"
def DeploymentData : BLADEItemType := "deployment"
def LogisticsData : BLADEItemType := "logistics"

/-- The Go struct `BLADEItem`; of the embedded `gorm.Model` only `CreatedAt`
is read by the code. Field defaults are the Go zero values. -/
structure BLADEItem where
  CreatedAt : Time := Time.zero
  ItemID : String := ""
  DataType : String := ""
  Data : JSON := JSON.empty
  ClassificationMarking : String := ""
  LastModified : Time := Time.zero
  Metadata : JSON := JSON.empty
  DataSourceID : Nat := 0
  IngestionJobID : String := ""
  CatalogID : String := ""
  UploadedAt : Option Time := none
  deriving Repr

/-- `GetDefaultClassification` returns default classification for item type. -/
def GetDefaultClassification (itemType : BLADEItemType) : String :=
  if itemType = MaintenanceData then "UNCLASSIFIED"
  else if itemType = SortieData then "CONFIDENTIAL"
  else if itemType = DeploymentData then "SECRET"
  else if itemType = LogisticsData then "UNCLASSIFIED"
  else "UNCLASSIFIED"

/-- The map literal `validMarkings` of `ValidateClassificationMarking`. -/
def validMarkings : List (String × Bool) :=
  [ ("U", true),
    ("UNCLASSIFIED", true),
    ("CUI", true),
    ("C", true),
    ("CONFIDENTIAL", true),
    ("S", true),
    ("SECRET", true),
    ("TS", true),
    ("TOP SECRET", true) ]

/-- `ValidateClassificationMarking` validates classification marking: the
map index `validMarkings[marking]`, which is `false` for an absent key. -/
def ValidateClassificationMarking (marking : String) : Bool :=
  match validMarkings.lookup marking with
  | some b => b
  | none => false

/-! ## `server/utils/config.go` -/

/-- The Go struct `Config`; durations are nanosecond counts. Field defaults
are the Go zero values. -/
structure Config where
  Host : String := ""
  GRPCPort : String := ""
  RESTPort : String := ""
  DBHost : String := ""
  DBPort : String := ""
  DBUser : String := ""
  DBPassword : String := ""
  DBName : String := ""
  DBSchema : String := ""
  MockDatabricksURL : String := ""
  MockDatabricksToken : String := ""
  MockWarehouseID : String := ""
  MockRequestTimeout : Int := 0
  CatalogURL : String := ""
  CatalogAuthToken : String := ""
  CatalogTimeout : Int := 0
  CatalogBatchSize : Int := 0
  CatalogRetryAttempts : Int := 0
  DefaultClassification : String := ""
  MaxRecordsPerQuery : Int := 0
  EnableDataValidation : Bool := false
  BLADEDataTypes : List String := []
  DataTypeMapping : List (String × String) := []
  ConcurrentUploads : Int := 0
  RateLimitPerSecond : Int := 0
  ProcessingTimeout : Int := 0
  LogLevel : String := ""
  LogFormat : String := ""
  UseSSL : Bool := false
  EnableSwaggerUI : Bool := false
  EnableMetrics : Bool := false
  deriving Repr, DecidableEq

/-- The process environment and the library parsers `LoadConfig` calls:
`os.Getenv` (the empty string for an unset variable), `strconv.Atoi`,
`strconv.ParseBool` and `time.ParseDuration` (`none` for a parse error). -/
structure Env where
  Getenv : String → String
  Atoi : String → Option Int
  ParseBool : String → Option Bool
  ParseDuration : String → Option Int

/-- The constant `time.Second`, in nanoseconds. -/
def Second : Int := 1000000000

/-- The constant `time.Minute`, in nanoseconds. -/
def Minute : Int := 60 * Second

def getEnvOrDefault (env : Env) (key defaultValue : String) : String :=
  let value := env.Getenv key
  if value ≠ "" then value else defaultValue

def getIntOrDefault (env : Env) (key : String) (defaultValue : Int) : Int :=
  let value := env.Getenv key
  if value ≠ "" then
    match env.Atoi value with
    | some parsed => parsed
    | none => defaultValue
  else defaultValue

def getBoolOrDefault (env : Env) (key : String) (defaultValue : Bool) : Bool :=
  let value := env.Getenv key
  if value ≠ "" then
    match env.ParseBool value with
    | some parsed => parsed
    | none => defaultValue
  else defaultValue

def getDurationOrDefault (env : Env) (key : String) (defaultValue : Int) : Int :=
  let value := env.Getenv key
  if value ≠ "" then
    match env.ParseDuration value with
    | some parsed => parsed
    | none => defaultValue
  else defaultValue

/-- `validateConfig` ensures all required configuration is present; `none`
is the nil error. -/
def validateConfig (config : Config) : Option String :=
  if config.DBPassword = "" then
    some "database password (APP_DB_ADMIN_PASSWORD) is required"
  else if config.MockDatabricksURL = "" then
    some "mock Databricks URL is required"
  else if config.CatalogURL = "" then
    some "catalog URL is required"
  else if config.MaxRecordsPerQuery ≤ 0 then
    some "max records per query must be positive"
  else if config.CatalogBatchSize ≤ 0 then
    some "catalog batch size must be positive"
  else none

/-- `LoadConfig` loads configuration from environment variables. -/
def LoadConfig (env : Env) : Except String Config :=
  let config : Config :=
    { Host := getEnvOrDefault env "HOST" "0.0.0.0",
      GRPCPort := getEnvOrDefault env "GRPC_PORT" "9090",
      RESTPort := getEnvOrDefault env "REST_PORT" "9091",
      DBHost := getEnvOrDefault env "PGHOST" "localhost",
      DBPort := getEnvOrDefault env "PGPORT" "5432",
      DBUser := getEnvOrDefault env "PG_USER" "blade_user",
      DBPassword := env.Getenv "APP_DB_ADMIN_PASSWORD",
      DBName := getEnvOrDefault env "PG_DATABASE" "blade_ingestion",
      DBSchema := getEnvOrDefault env "DB_SCHEMA_NAME" "public",
      MockDatabricksURL := getEnvOrDefault env "MOCK_DATABRICKS_URL" "http://localhost:8080",
      MockDatabricksToken := env.Getenv "MOCK_DATABRICKS_TOKEN",
      MockWarehouseID := getEnvOrDefault env "MOCK_DATABRICKS_WAREHOUSE_ID" "test-warehouse",
      MockRequestTimeout := getDurationOrDefault env "MOCK_REQUEST_TIMEOUT" (30 * Second),
      CatalogURL := getEnvOrDefault env "CATALOG_URL" "http://localhost:8092",
      CatalogAuthToken := env.Getenv "CATALOG_AUTH_TOKEN",
      CatalogTimeout := getDurationOrDefault env "CATALOG_TIMEOUT" (60 * Second),
      CatalogBatchSize := getIntOrDefault env "CATALOG_BATCH_SIZE" 10,
      CatalogRetryAttempts := getIntOrDefault env "CATALOG_RETRY_ATTEMPTS" 3,
      DefaultClassification := getEnvOrDefault env "DEFAULT_CLASSIFICATION" "UNCLASSIFIED",
      MaxRecordsPerQuery := getIntOrDefault env "MAX_RECORDS_PER_QUERY" 1000,
      EnableDataValidation := getBoolOrDefault env "ENABLE_DATA_VALIDATION" true,
      BLADEDataTypes := ["maintenance", "sortie", "deployment", "logistics"],
      DataTypeMapping :=
        [ ("maintenance", "blade_maintenance_data"),
          ("sortie", "blade_sortie_data"),
          ("deployment", "blade_deployment_data"),
          ("logistics", "blade_logistics_data") ],
      ConcurrentUploads := getIntOrDefault env "CONCURRENT_UPLOADS" 5,
      RateLimitPerSecond := getIntOrDefault env "RATE_LIMIT_PER_SECOND" 10,
      ProcessingTimeout := getDurationOrDefault env "PROCESSING_TIMEOUT" (5 * Minute),
      LogLevel := getEnvOrDefault env "LOG_LEVEL" "debug",
      LogFormat := getEnvOrDefault env "LOG_FORMAT" "json",
      UseSSL := getBoolOrDefault env "USE_SSL" false,
      EnableSwaggerUI := getBoolOrDefault env "ENABLE_SWAGGER_UI" true,
      EnableMetrics := getBoolOrDefault env "ENABLE_METRICS" false }
  match validateConfig config with
  | some err => .error ("configuration validation failed: " ++ err)
  | none => .ok config

/-- `GetDatabricksQuery` builds a SQL query for a BLADE data type. -/
def Config.GetDatabricksQuery (c : Config) (dataType : String) (filter : String)
    (limit : Int) : String :=
  let tableName :=
    match c.DataTypeMapping.lookup dataType with
    | some t => t
    | none => "blade_" ++ dataType ++ "_data"
  let query := "SELECT * FROM " ++ c.DBSchema ++ "." ++ tableName
  let query := if filter ≠ "" then query ++ (" WHERE " ++ filter) else query
  let query :=
    if limit > 0 then query ++ (" LIMIT " ++ Sprintf_d limit)
    else if c.MaxRecordsPerQuery > 0 then query ++ (" LIMIT " ++ Sprintf_d c.MaxRecordsPerQuery)
    else query
  query

/-- The loop of `IsBLADEDataType` over the remaining valid types. -/
def isBLADEDataTypeLoop (dataType : String) : List String → Bool
  | [] => false
  | validType :: rest =>
    if validType = dataType then true else isBLADEDataTypeLoop dataType rest

/-- `IsBLADEDataType` checks if the given type is valid. -/
def Config.IsBLADEDataType (c : Config) (dataType : String) : Bool :=
  isBLADEDataTypeLoop dataType c.BLADEDataTypes

/-! ## `server/blade_server/databricks.go` -/

/-- The type assertion `m[key].(string)` in its comma-ok form: the string and
`true` when the entry is present and holds a string, the zero string and
`false` otherwise. -/
def stringEntry (m : List (String × GoValue)) (key : String) : String × Bool :=
  match m.lookup key with
  | some (.str s) => (s, true)
  | _ => ("", false)

/-- `TransformToBLADEItem` converts raw data to BLADE item format. The three
`Time` arguments are the readings of `time.Now()` at its three call sites:
the synthesized item id, `LastModified`, and the `import_time` stamp. -/
def TransformToBLADEItem (idNow modNow metaNow : Time) (dataType : String)
    (rawData : List (String × GoValue)) : Except String BLADEItem :=
  -- Generate item ID if not present
  let (itemID, ok) := stringEntry rawData "item_id"
  let itemID :=
    if !ok || itemID = "" then dataType ++ "-" ++ Sprintf_d idNow.unix else itemID
  -- Marshal data to JSON
  match json_Marshal rawData with
  | .error err => .error ("failed to marshal data: " ++ err)
  | .ok dataJSON =>
    -- Determine classification
    let classification := GetDefaultClassification dataType
    let classification :=
      match stringEntry rawData "classification" with
      | (cls, true) => cls
      | (_, false) => classification
    -- Create BLADE item
    let item : BLADEItem :=
      { ItemID := itemID,
        DataType := dataType,
        Data := dataJSON,
        ClassificationMarking := classification,
        LastModified := modNow }
    -- Add metadata
    let metadata : List (String × GoValue) :=
      [ ("source", .str "databricks"),
        ("import_time", .str metaNow.rfc3339) ]
    let metadataJSON :=
      match json_Marshal metadata with
      | .ok b => b
      | .error _ => JSON.empty
    .ok { item with Metadata := metadataJSON }

/-! ## `server/blade_server/helpers.go` -/

/-- An `http.Request`, as far as the code builds it. -/
structure Request where
  Method : String
  URL : String
  Header : List (String × String) := []
  deriving Repr, DecidableEq

/-- An `http.Response`, as far as the code reads it. -/
structure Response where
  StatusCode : Int
  Body : String := ""
  deriving Repr, DecidableEq

/-- The method `Header.Set`: replaces the values of the key. -/
def Request.setHeader (req : Request) (key value : String) : Request :=
  { req with Header := (key, value) :: req.Header.filter (fun kv => kv.1 ≠ key) }

def StatusOK : Int := 200
def StatusNotFound : Int := 404

/-- The Go struct `CatalogUploader`; `httpClient` is the client's `Do`. -/
structure CatalogUploader where
  catalogURL : String
  authToken : String
  httpClient : Request → Except String Response

/-- `CheckItemExists` checks if an item already exists in the catalog. The
first argument is the library call `http.NewRequest` (without a body). The
Go result `(bool, error)` is a pair whose second component is the error. -/
def CatalogUploader.CheckItemExists (http_NewRequest : String → String → Except String Request)
    (cu : CatalogUploader) (dataType itemID : String) : Bool × Option String :=
  let url := cu.catalogURL ++ "/catalog/exists?source=" ++ dataType ++ "&id=" ++ itemID
  match http_NewRequest "GET" url with
  | .error err => (false, some err)
  | .ok req =>
    let req := req.setHeader "Authorization" ("Bearer " ++ cu.authToken)
    match cu.httpClient req with
    | .error err => (false, some err)
    | .ok resp =>
      if resp.StatusCode = StatusOK then (true, none)
      else if resp.StatusCode = StatusNotFound then (false, none)
      else (false, some ("unexpected status code: " ++ Sprintf_d resp.StatusCode))

/-- Whether a `datatypes.JSON` byte slice has length zero. -/
def JSON.isEmpty : JSON → Bool
  | .empty => true
  | .doc _ => false
  | .invalid raw => raw = ""

/-- The library call `json.Unmarshal` into a `map[string]interface{}`: the
map of a JSON object, the untouched nil map for the document `null`, and an
error for every other document and for bytes that are not a JSON text. -/
def json_Unmarshal (data : JSON) : Except String (List (String × GoValue)) :=
  match data with
  | .doc (.obj kvs) => .ok kvs
  | .doc .null => .ok []
  | .doc _ => .error "json: cannot unmarshal into Go value of type map[string]interface {}"
  | .empty => .error "unexpected end of JSON input"
  | .invalid _ => .error "invalid character looking for beginning of value"

/-- The map assignment `m[key] = value`: the binding of the key is replaced. -/
def mapSet (m : List (String × GoValue)) (key : String) (value : GoValue) :
    List (String × GoValue) :=
  (key, value) :: m.filter (fun kv => kv.1 ≠ key)

/-- The entries a `range` over the map visits, skipping the keys in `seen`:
each key once, with the value `List.lookup` reads for it. -/
def mapEntriesFrom (seen : List String) : List (String × GoValue) → List (String × GoValue)
  | [] => []
  | (k, v) :: rest =>
    if k ∈ seen then mapEntriesFrom seen rest
    else (k, v) :: mapEntriesFrom (k :: seen) rest

/-- The entries a `range` over the map visits. -/
def mapEntries (m : List (String × GoValue)) : List (String × GoValue) :=
  mapEntriesFrom [] m

/-- The map literal `metadata` that `BuildMetadata` starts from. The first
argument is the library method `Time.Format`, taking the time and the
layout. -/
def computedMetadata (Format : Time → String → String) (item : BLADEItem) (source : String) :
    List (String × GoValue) :=
  [ ("dataType", .str item.DataType),
    ("itemId", .str item.ItemID),
    ("classification", .str item.ClassificationMarking),
    ("source", .str source),
    ("importTime", .str (Format item.CreatedAt "2006-01-02T15:04:05Z")) ]

/-- `BuildMetadata` builds metadata for catalog upload. -/
def BuildMetadata (Format : Time → String → String) (item : BLADEItem) (source : String) :
    List (String × GoValue) :=
  let metadata := computedMetadata Format item source
  -- Add any existing metadata
  if !item.Metadata.isEmpty then
    match json_Unmarshal item.Metadata with
    | .ok existingMeta =>
      (mapEntries existingMeta).foldl (fun metadata kv => mapSet metadata kv.1 kv.2) metadata
    | .error _ => metadata
  else metadata

/-! ## Auxiliary facts about strings and lookups -/

theorem append_eq_self_iff (s t : String) : s ++ t = s ↔ t = "" := by
  constructor
  · intro h
    have h1 : (s ++ t).data = s.data := congrArg String.data h
    rw [String.data_append] at h1
    have h2 : t.data = [] := List.append_right_eq_self.mp h1
    exact String.ext h2
  · intro h
    subst h
    exact String.append_empty s

theorem lookup_cons_of_ne {β : Type} (a k : String) (b : β) (es : List (String × β))
    (h : a ≠ k) : List.lookup a ((k, b) :: es) = List.lookup a es := by
  have e : (a == k) = false := by simpa using h
  simp [List.lookup, e]

theorem lookup_cons_self {β : Type} (a : String) (b : β) (es : List (String × β)) :
    List.lookup a ((a, b) :: es) = some b := by
  simp [List.lookup]

theorem stringEntry_of_str (m : List (String × GoValue)) (key s : String)
    (h : m.lookup key = some (.str s)) : stringEntry m key = (s, true) := by
  simp [stringEntry, h]

theorem stringEntry_of_not_str (m : List (String × GoValue)) (key : String)
    (h : ∀ s, m.lookup key ≠ some (.str s)) : stringEntry m key = ("", false) := by
  unfold stringEntry
  split
  · next s hs => exact absurd hs (h s)
  · rfl

theorem stringEntry_cases (m : List (String × GoValue)) (key : String) :
    (∃ s, m.lookup key = some (.str s) ∧ stringEntry m key = (s, true))
    ∨ ((∀ s, m.lookup key ≠ some (.str s)) ∧ stringEntry m key = ("", false)) := by
  by_cases h : ∃ s, m.lookup key = some (.str s)
  · obtain ⟨s, hs⟩ := h
    exact Or.inl ⟨s, hs, stringEntry_of_str m key s hs⟩
  · have h2 : ∀ s, m.lookup key ≠ some (.str s) := fun s hs => h ⟨s, hs⟩
    exact Or.inr ⟨h2, stringEntry_of_not_str m key h2⟩

mutual
theorem marshalError_eq_none_iff :
    ∀ v : GoValue, GoValue.marshalError v = none ↔ GoValue.encodable v = true
  | .null => by simp [GoValue.marshalError, GoValue.encodable]
  | .bool _ => by simp [GoValue.marshalError, GoValue.encodable]
  | .number _ => by simp [GoValue.marshalError, GoValue.encodable]
  | .str _ => by simp [GoValue.marshalError, GoValue.encodable]
  | .arr xs => by
    simp only [GoValue.marshalError, GoValue.encodable]
    exact marshalErrorList_eq_none_iff xs
  | .obj kvs => by
    simp only [GoValue.marshalError, GoValue.encodable]
    rw [← marshalErrorFields_eq_none_iff kvs]
    cases GoValue.marshalErrorFields kvs <;> simp
  | .unsupported _ => by simp [GoValue.marshalError, GoValue.encodable]
theorem marshalErrorList_eq_none_iff :
    ∀ xs : List GoValue, GoValue.marshalErrorList xs = none ↔ GoValue.encodableList xs = true
  | [] => by simp [GoValue.marshalErrorList, GoValue.encodableList]
  | x :: xs => by
    simp only [GoValue.marshalErrorList, GoValue.encodableList, Bool.and_eq_true]
    rw [← marshalError_eq_none_iff x, ← marshalErrorList_eq_none_iff xs]
    cases GoValue.marshalError x <;> simp
theorem marshalErrorFields_eq_none_iff :
    ∀ kvs : List (String × GoValue),
      GoValue.marshalErrorFields kvs = none ↔ GoValue.encodableFields kvs = true
  | [] => by simp [GoValue.marshalErrorFields, GoValue.encodableFields]
  | (k, v) :: kvs => by
    simp only [GoValue.marshalErrorFields, GoValue.encodableFields, Bool.and_eq_true]
    rw [← marshalError_eq_none_iff v, ← marshalErrorFields_eq_none_iff kvs]
    cases GoValue.marshalError v with
    | none => simp
    | some err =>
      cases GoValue.marshalErrorFields kvs with
      | none => simp
      | some later =>
        obtain ⟨k2, err2⟩ := later
        by_cases hlt : k2.data < k.data <;> simp [hlt]
end

theorem json_Marshal_of_encodable (m : List (String × GoValue))
    (h : GoValue.encodableFields m = true) : json_Marshal m = .ok (.doc (.obj m)) := by
  unfold json_Marshal
  rw [(marshalErrorFields_eq_none_iff m).mpr h]

/-- On a map with a value that cannot be encoded, `json.Marshal` returns the
error of the rejected entry with the least key. -/
theorem json_Marshal_of_not_encodable (m : List (String × GoValue))
    (h : GoValue.encodableFields m = false) :
    ∃ k err, GoValue.marshalErrorFields m = some (k, err) ∧ json_Marshal m = .error err := by
  unfold json_Marshal
  cases hme : GoValue.marshalErrorFields m with
  | none =>
    rw [(marshalErrorFields_eq_none_iff m).mp hme] at h
    cases h
  | some r =>
    obtain ⟨k, err⟩ := r
    exact ⟨k, err, rfl, rfl⟩

/-- The item `TransformToBLADEItem` builds on a row that `json.Marshal`
accepts, field by field. -/
theorem transform_of_encodable (idNow modNow metaNow : Time) (dataType : String)
    (rawData : List (String × GoValue)) (h : GoValue.encodableFields rawData = true) :
    TransformToBLADEItem idNow modNow metaNow dataType rawData = .ok
      { ItemID :=
          if !(stringEntry rawData "item_id").2 || (stringEntry rawData "item_id").1 = ""
          then dataType ++ "-" ++ Sprintf_d idNow.unix
          else (stringEntry rawData "item_id").1,
        DataType := dataType,
        Data := .doc (.obj rawData),
        ClassificationMarking :=
          if (stringEntry rawData "classification").2
          then (stringEntry rawData "classification").1
          else GetDefaultClassification dataType,
        LastModified := modNow,
        Metadata := .doc (.obj [("source", .str "databricks"),
                                ("import_time", .str metaNow.rfc3339)]) } := by
  have hm : json_Marshal [("source", GoValue.str "databricks"),
      ("import_time", GoValue.str metaNow.rfc3339)]
      = .ok (.doc (.obj [("source", .str "databricks"),
          ("import_time", .str metaNow.rfc3339)])) := rfl
  unfold TransformToBLADEItem
  simp only [json_Marshal_of_encodable rawData h, hm]
  rcases hc : stringEntry rawData "classification" with ⟨cls, b⟩
  cases b <;> simp

/-- On a row that `json.Marshal` rejects, `TransformToBLADEItem` returns the
encoding error, wrapped, and no item. -/
theorem transform_of_not_encodable (idNow modNow metaNow : Time) (dataType : String)
    (rawData : List (String × GoValue)) (h : GoValue.encodableFields rawData = false) :
    ∃ err, json_Marshal rawData = .error err
      ∧ TransformToBLADEItem idNow modNow metaNow dataType rawData
          = .error ("failed to marshal data: " ++ err) := by
  obtain ⟨_, err, _, herr⟩ := json_Marshal_of_not_encodable rawData h
  refine ⟨err, herr, ?_⟩
  unfold TransformToBLADEItem
  simp [herr]

/-- The statement `GetDatabricksQuery` returns, as one concatenation. -/
theorem getDatabricksQuery_eq (c : Config) (dataType filter : String) (limit : Int) :
    c.GetDatabricksQuery dataType filter limit =
      "SELECT * FROM " ++ c.DBSchema ++ "."
        ++ (match c.DataTypeMapping.lookup dataType with
            | some t => t
            | none => "blade_" ++ dataType ++ "_data")
        ++ (if filter = "" then "" else " WHERE " ++ filter)
        ++ (if limit > 0 then " LIMIT " ++ Sprintf_d limit
            else if c.MaxRecordsPerQuery > 0 then " LIMIT " ++ Sprintf_d c.MaxRecordsPerQuery
            else "") := by
  unfold Config.GetDatabricksQuery
  by_cases hf : filter = "" <;> by_cases hl : limit > 0 <;>
    by_cases hm : c.MaxRecordsPerQuery > 0 <;>
    simp [hf, hl, hm, String.append_assoc]

theorem getEnvOrDefault_ne_empty (env : Env) (key defaultValue : String)
    (h : defaultValue ≠ "") : getEnvOrDefault env key defaultValue ≠ "" := by
  unfold getEnvOrDefault
  by_cases hv : env.Getenv key = "" <;> simp [hv, h]

theorem limit_clause_ne_empty (d : String) : " LIMIT " ++ d ≠ "" := by
  intro h0
  have h1 : (" LIMIT " ++ d).data = [] := by rw [h0]
  simp [String.data_append] at h1

theorem lookup_filter_ne (m : List (String × GoValue)) (k key : String) (h : k ≠ key) :
    List.lookup k (m.filter (fun kv => kv.1 ≠ key)) = List.lookup k m := by
  induction m with
  | nil => rfl
  | cons kv rest ih =>
    obtain ⟨k1, v1⟩ := kv
    simp only [ne_eq, decide_not] at ih ⊢
    by_cases h1 : k1 = key
    · subst h1
      simp [List.filter, lookup_cons_of_ne k k1 v1 rest h, ih]
    · by_cases h2 : k = k1
      · subst h2
        simp [List.filter, h1, lookup_cons_self]
      · simp [List.filter, h1, lookup_cons_of_ne k k1 v1 _ h2, ih]

theorem lookup_mapSet_self (m : List (String × GoValue)) (key : String) (value : GoValue) :
    List.lookup key (mapSet m key value) = some value := by
  simp [mapSet, lookup_cons_self]

theorem lookup_mapSet_of_ne (m : List (String × GoValue)) (k key : String) (value : GoValue)
    (h : k ≠ key) : List.lookup k (mapSet m key value) = List.lookup k m := by
  unfold mapSet
  rw [lookup_cons_of_ne k key value _ h, lookup_filter_ne m k key h]

/-- The `range` loop of `BuildMetadata`: after it, a key outside `seen` that
the ranged map binds holds the ranged map's value, and every other key holds
what it held before. -/
theorem lookup_foldl_mapSet (m : List (String × GoValue)) :
    ∀ (seen : List String) (init : List (String × GoValue)) (k : String),
      List.lookup k ((mapEntriesFrom seen m).foldl (fun acc kv => mapSet acc kv.1 kv.2) init)
        = if k ∈ seen then List.lookup k init
          else match List.lookup k m with
            | some v => some v
            | none => List.lookup k init := by
  induction m with
  | nil =>
    intro seen init k
    simp [mapEntriesFrom]
  | cons kv rest ih =>
    intro seen init k
    obtain ⟨k1, v1⟩ := kv
    by_cases hs : k1 ∈ seen
    · simp only [mapEntriesFrom, hs, if_true]
      rw [ih seen init k]
      by_cases hk : k ∈ seen
      · simp [hk]
      · have hne : k ≠ k1 := fun e => hk (e ▸ hs)
        simp [hk, lookup_cons_of_ne k k1 v1 rest hne]
    · simp only [mapEntriesFrom, hs, if_false, List.foldl_cons]
      rw [ih (k1 :: seen) (mapSet init k1 v1) k]
      by_cases hk1 : k = k1
      · subst hk1
        simp [hs, lookup_mapSet_self, lookup_cons_self]
      · by_cases hk : k ∈ seen
        · simp [hk, hk1, lookup_mapSet_of_ne init k k1 v1 hk1]
        · simp [hk, hk1, lookup_mapSet_of_ne init k k1 v1 hk1,
            lookup_cons_of_ne k k1 v1 rest hk1]

theorem isBLADEDataTypeLoop_iff (dataType : String) (types : List String) :
    isBLADEDataTypeLoop dataType types = true ↔ dataType ∈ types := by
  induction types with
  | nil => simp [isBLADEDataTypeLoop]
  | cons t rest ih =>
    by_cases h : t = dataType
    · simp [isBLADEDataTypeLoop, h]
    · have h2 : ¬ dataType = t := fun e => h e.symm
      simp [isBLADEDataTypeLoop, h, h2, ih]

/-- What `BuildMetadata` holds for a key when the item's metadata is a JSON
object: the object's value if it binds the key, the computed value if not. -/
theorem buildMetadata_lookup_of_obj (Format : Time → String → String) (item : BLADEItem)
    (source : String) (kvs : List (String × GoValue)) (h : item.Metadata = .doc (.obj kvs))
    (k : String) :
    List.lookup k (BuildMetadata Format item source)
      = match List.lookup k kvs with
        | some v => some v
        | none => List.lookup k (computedMetadata Format item source) := by
  unfold BuildMetadata
  simp only [h, JSON.isEmpty, json_Unmarshal, mapEntries]
  have hf := lookup_foldl_mapSet kvs [] (computedMetadata Format item source) k
  simpa using hf

/-- `BuildMetadata` returns the computed map when the item's metadata is not
a JSON object. -/
theorem buildMetadata_of_not_obj (Format : Time → String → String) (item : BLADEItem)
    (source : String) (h : ∀ kvs, item.Metadata ≠ .doc (.obj kvs)) :
    BuildMetadata Format item source = computedMetadata Format item source := by
  unfold BuildMetadata
  cases hm : item.Metadata with
  | empty => simp [JSON.isEmpty]
  | invalid raw =>
    by_cases hr : raw = "" <;> simp [JSON.isEmpty, json_Unmarshal, hr]
  | doc v =>
    cases v with
    | obj kvs => exact absurd hm (h kvs)
    | null => simp [JSON.isEmpty, json_Unmarshal, mapEntries, mapEntriesFrom]
    | bool b => simp [JSON.isEmpty, json_Unmarshal]
    | number n => simp [JSON.isEmpty, json_Unmarshal]
    | str t => simp [JSON.isEmpty, json_Unmarshal]
    | arr xs => simp [JSON.isEmpty, json_Unmarshal]
    | unsupported err => simp [JSON.isEmpty, json_Unmarshal]

theorem computedMetadata_keys (Format : Time → String → String) (item : BLADEItem)
    (source : String) (k : String)
    (hk : k ∈ ["dataType", "itemId", "classification", "source", "importTime"]) :
    (List.lookup k (computedMetadata Format item source)).isSome = true := by
  simp only [List.mem_cons, List.mem_singleton, List.not_mem_nil, or_false] at hk
  rcases hk with h | h | h | h | h <;> subst h <;> rfl

theorem loadConfig_dataTypes (env : Env) (cfg : Config) (h : LoadConfig env = .ok cfg) :
    cfg.BLADEDataTypes = ["maintenance", "sortie", "deployment", "logistics"] := by
  unfold LoadConfig at h
  dsimp only at h
  split at h
  · cases h
  · injection h with hc
    subst hc
    rfl

/-! ## Theorems -/

/-- C8: `ValidateClassificationMarking m` is true if and only if `m` is exactly
one of the nine markings U, UNCLASSIFIED, CUI, C, CONFIDENTIAL, S, SECRET, TS,
TOP SECRET; in particular the empty string, a lower-case spelling and a
padded spelling are rejected. -/
theorem validateClassificationMarking_iff (m : String) :
    (ValidateClassificationMarking m = true ↔
      m ∈ ["U", "UNCLASSIFIED", "CUI", "C", "CONFIDENTIAL", "S", "SECRET", "TS", "TOP SECRET"])
    ∧ ValidateClassificationMarking "" = false
    ∧ ValidateClassificationMarking "secret" = false
    ∧ ValidateClassificationMarking " SECRET" = false := by
  refine ⟨?_, by decide, by decide, by decide⟩
  constructor
  · intro h
    by_contra hn
    simp only [List.mem_cons, List.mem_singleton, List.not_mem_nil, or_false, not_or] at hn
    obtain ⟨h1, h2, h3, h4, h5, h6, h7, h8, h9⟩ := hn
    simp [ValidateClassificationMarking, validMarkings, lookup_cons_of_ne, h1, h2, h3, h4, h5,
      h6, h7, h8, h9] at h
  · intro h
    simp only [List.mem_cons, List.mem_singleton, List.not_mem_nil, or_false] at h
    rcases h with h | h | h | h | h | h | h | h | h <;> subst h <;> decide

/-- C1 (counterexample): on the sortie row whose "classification" entry is the
string "FOUO", which `ValidateClassificationMarking` rejects,
`TransformToBLADEItem` returns an item whose ClassificationMarking is the raw
value "FOUO" and not the sortie default "CONFIDENTIAL". -/
theorem transform_invalid_classification_not_default :
    ValidateClassificationMarking "FOUO" = false ∧
    ∃ item, TransformToBLADEItem ⟨1700000000, "2023-11-14T22:13:20Z"⟩
        ⟨1700000000, "2023-11-14T22:13:20Z"⟩ ⟨1700000000, "2023-11-14T22:13:20Z"⟩ "sortie"
        [("item_id", .str "S-1"), ("classification", .str "FOUO")] = .ok item
      ∧ item.ClassificationMarking = "FOUO"
      ∧ item.ClassificationMarking ≠ GetDefaultClassification "sortie" := by
  refine ⟨by decide, _, transform_of_encodable _ _ _ _ _ (by decide), ?_, ?_⟩ <;> decide

/-- C1 (amended): for every data type and every row that `json.Marshal` accepts
and whose "classification" entry is a string `s`, inside the enumeration or
not, `TransformToBLADEItem` returns an item whose ClassificationMarking is `s`
unchanged; so it equals the data type's default only if `s` is that default. -/
theorem transform_classification_of_string (idNow modNow metaNow : Time) (dataType : String)
    (rawData : List (String × GoValue)) (s : String)
    (henc : GoValue.encodableFields rawData = true)
    (hs : rawData.lookup "classification" = some (.str s)) :
    ∃ item, TransformToBLADEItem idNow modNow metaNow dataType rawData = .ok item
      ∧ item.ClassificationMarking = s
      ∧ (item.ClassificationMarking = GetDefaultClassification dataType
          ↔ s = GetDefaultClassification dataType) := by
  refine ⟨_, transform_of_encodable idNow modNow metaNow dataType rawData henc, ?_, ?_⟩
  · simp [stringEntry_of_str rawData "classification" s hs]
  · simp [stringEntry_of_str rawData "classification" s hs]

theorem transform_classification_of_string_witness :
    GoValue.encodableFields
        [("unit_type", .str "infantry"), ("classification", .str "internal use")] = true ∧
    ∃ item, TransformToBLADEItem ⟨1700000000, "2023-11-14T22:13:20Z"⟩
        ⟨1700000001, "2023-11-14T22:13:21Z"⟩ ⟨1700000002, "2023-11-14T22:13:22Z"⟩ "deployment"
        [("unit_type", .str "infantry"), ("classification", .str "internal use")] = .ok item
      ∧ item.ClassificationMarking = "internal use"
      ∧ (item.ClassificationMarking = GetDefaultClassification "deployment"
          ↔ "internal use" = GetDefaultClassification "deployment") :=
  ⟨by decide, transform_classification_of_string _ _ _ "deployment"
    [("unit_type", .str "infantry"), ("classification", .str "internal use")] "internal use"
    (by decide) rfl⟩

/-- C2 (amended): for every data type, every row that `json.Marshal` accepts
and every clock reading, `TransformToBLADEItem` returns an item; if the row's "item_id"
entry is a non-empty string the ItemID is exactly that string; otherwise
(entry missing, not a string, or the empty string) the ItemID is exactly the
data type, "-" and the decimal Unix seconds of the reading, hence non-empty
and beginning with the data type followed by "-". -/
theorem transform_itemID (idNow modNow metaNow : Time) (dataType : String)
    (rawData : List (String × GoValue)) (henc : GoValue.encodableFields rawData = true) :
    ∃ item, TransformToBLADEItem idNow modNow metaNow dataType rawData = .ok item
      ∧ (∀ s, rawData.lookup "item_id" = some (.str s) → s ≠ "" → item.ItemID = s)
      ∧ ((∀ s, s ≠ "" → rawData.lookup "item_id" ≠ some (.str s)) →
          item.ItemID = dataType ++ "-" ++ Sprintf_d idNow.unix
          ∧ item.ItemID ≠ ""
          ∧ ∃ rest, item.ItemID = (dataType ++ "-") ++ rest) := by
  refine ⟨_, transform_of_encodable idNow modNow metaNow dataType rawData henc, ?_, ?_⟩
  · intro s hs hne
    simp [stringEntry_of_str rawData "item_id" s hs, hne]
  · intro hno
    have hid : (if !(stringEntry rawData "item_id").2 || (stringEntry rawData "item_id").1 = ""
        then dataType ++ "-" ++ Sprintf_d idNow.unix
        else (stringEntry rawData "item_id").1) = dataType ++ "-" ++ Sprintf_d idNow.unix := by
      rcases stringEntry_cases rawData "item_id" with ⟨s, hs, he⟩ | ⟨_, he⟩
      · have hs0 : s = "" := by
          by_contra hne
          exact hno s hne hs
        simp [he, hs0]
      · simp [he]
    refine ⟨hid, ?_, Sprintf_d idNow.unix, hid⟩
    show (if !(stringEntry rawData "item_id").2 || (stringEntry rawData "item_id").1 = ""
        then dataType ++ "-" ++ Sprintf_d idNow.unix
        else (stringEntry rawData "item_id").1) ≠ ""
    rw [hid]
    intro h0
    have h1 : (dataType ++ "-" ++ Sprintf_d idNow.unix).data = [] := by rw [h0]
    simp [String.data_append] at h1

theorem transform_itemID_witness :
    GoValue.encodableFields [("item_id", .number 7), ("vendor", .str "ACME")] = true ∧
    ∃ item, TransformToBLADEItem ⟨1700000000, "2023-11-14T22:13:20Z"⟩
        ⟨1700000001, "2023-11-14T22:13:21Z"⟩ ⟨1700000002, "2023-11-14T22:13:22Z"⟩ "logistics"
        [("item_id", .number 7), ("vendor", .str "ACME")] = .ok item
      ∧ item.ItemID = "logistics-1700000000" := by
  obtain ⟨item, hok, _, hsyn⟩ := transform_itemID ⟨1700000000, "2023-11-14T22:13:20Z"⟩
    ⟨1700000001, "2023-11-14T22:13:21Z"⟩ ⟨1700000002, "2023-11-14T22:13:22Z"⟩ "logistics"
    [("item_id", .number 7), ("vendor", .str "ACME")] (by decide)
  refine ⟨by decide, item, hok, ?_⟩
  have h := (hsyn (by intro s _ hs; simp [lookup_cons_self] at hs)).1
  rw [h]
  decide

/-- C2 (counterexample): on a maintenance row whose "item_id" entry is the
non-empty string "M-1" and which also holds a function value, which
`json.Marshal` rejects, `TransformToBLADEItem` returns the wrapped encoding
error and no item. -/
theorem transform_itemID_unencodable_row :
    List.lookup "item_id"
        [("item_id", GoValue.str "M-1"),
          ("on_update", GoValue.unsupported "json: unsupported type: func()")]
      = some (.str "M-1")
    ∧ TransformToBLADEItem ⟨1700000000, "2023-11-14T22:13:20Z"⟩
        ⟨1700000000, "2023-11-14T22:13:20Z"⟩ ⟨1700000000, "2023-11-14T22:13:20Z"⟩ "maintenance"
        [("item_id", .str "M-1"), ("on_update", .unsupported "json: unsupported type: func()")]
      = .error "failed to marshal data: json: unsupported type: func()"
    ∧ ¬ ∃ item, TransformToBLADEItem ⟨1700000000, "2023-11-14T22:13:20Z"⟩
        ⟨1700000000, "2023-11-14T22:13:20Z"⟩ ⟨1700000000, "2023-11-14T22:13:20Z"⟩ "maintenance"
        [("item_id", .str "M-1"), ("on_update", .unsupported "json: unsupported type: func()")]
      = .ok item := by
  refine ⟨rfl, rfl, ?_⟩
  rintro ⟨item, hitem⟩
  have herr : TransformToBLADEItem ⟨1700000000, "2023-11-14T22:13:20Z"⟩
      ⟨1700000000, "2023-11-14T22:13:20Z"⟩ ⟨1700000000, "2023-11-14T22:13:20Z"⟩ "maintenance"
      [("item_id", .str "M-1"), ("on_update", .unsupported "json: unsupported type: func()")]
      = .error "failed to marshal data: json: unsupported type: func()" := rfl
  rw [herr] at hitem
  cases hitem

/-- C7 (amended): for every row that `json.Marshal` accepts and that has no
string-valued "classification" entry, `TransformToBLADEItem` returns an item
whose ClassificationMarking is `GetDefaultClassification` of the data type,
and `GetDefaultClassification` is UNCLASSIFIED for maintenance, CONFIDENTIAL
for sortie, SECRET for deployment and UNCLASSIFIED for logistics. -/
theorem transform_default_classification (idNow modNow metaNow : Time) (dataType : String)
    (rawData : List (String × GoValue)) (henc : GoValue.encodableFields rawData = true)
    (hno : ∀ s, rawData.lookup "classification" ≠ some (.str s)) :
    (∃ item, TransformToBLADEItem idNow modNow metaNow dataType rawData = .ok item
      ∧ item.ClassificationMarking = GetDefaultClassification dataType
      ∧ (dataType = "maintenance" → item.ClassificationMarking = "UNCLASSIFIED")
      ∧ (dataType = "sortie" → item.ClassificationMarking = "CONFIDENTIAL")
      ∧ (dataType = "deployment" → item.ClassificationMarking = "SECRET")
      ∧ (dataType = "logistics" → item.ClassificationMarking = "UNCLASSIFIED"))
    ∧ GetDefaultClassification MaintenanceData = "UNCLASSIFIED"
    ∧ GetDefaultClassification SortieData = "CONFIDENTIAL"
    ∧ GetDefaultClassification DeploymentData = "SECRET"
    ∧ GetDefaultClassification LogisticsData = "UNCLASSIFIED" := by
  refine ⟨⟨_, transform_of_encodable idNow modNow metaNow dataType rawData henc, ?_, ?_, ?_, ?_, ?_⟩,
    by decide, by decide, by decide, by decide⟩
  · simp [stringEntry_of_not_str rawData "classification" hno]
  all_goals
    intro hd
    subst hd
    simp only [stringEntry_of_not_str rawData "classification" hno]
    decide

theorem transform_default_classification_witness :
    GoValue.encodableFields [("item_id", .str "S-9"), ("classification", .number 3)] = true ∧
    ∃ item, TransformToBLADEItem ⟨1700000000, "2023-11-14T22:13:20Z"⟩
        ⟨1700000001, "2023-11-14T22:13:21Z"⟩ ⟨1700000002, "2023-11-14T22:13:22Z"⟩ "sortie"
        [("item_id", .str "S-9"), ("classification", .number 3)] = .ok item
      ∧ item.ClassificationMarking = "CONFIDENTIAL" := by
  obtain ⟨⟨item, hok, _, _, hs, _⟩, _⟩ :=
    transform_default_classification ⟨1700000000, "2023-11-14T22:13:20Z"⟩
      ⟨1700000001, "2023-11-14T22:13:21Z"⟩ ⟨1700000002, "2023-11-14T22:13:22Z"⟩ "sortie"
      [("item_id", .str "S-9"), ("classification", .number 3)] (by decide)
      (by intro s hs; simp [lookup_cons_of_ne, lookup_cons_self] at hs)
  exact ⟨by decide, item, hok, hs rfl⟩

/-- C7 (counterexample): on a sortie row with no string-valued
"classification" entry that holds a non-finite float, which `json.Marshal`
rejects, `TransformToBLADEItem` returns the wrapped encoding error and no
item, so no item with the default marking. -/
theorem transform_default_classification_unencodable_row :
    (∀ s, List.lookup "classification"
        [("classification", GoValue.number 3),
          ("flight_hours", GoValue.unsupported "json: unsupported value: NaN")]
      ≠ some (.str s))
    ∧ TransformToBLADEItem ⟨1700000000, "2023-11-14T22:13:20Z"⟩
        ⟨1700000000, "2023-11-14T22:13:20Z"⟩ ⟨1700000000, "2023-11-14T22:13:20Z"⟩ "sortie"
        [("classification", .number 3),
          ("flight_hours", .unsupported "json: unsupported value: NaN")]
      = .error "failed to marshal data: json: unsupported value: NaN"
    ∧ ¬ ∃ item, TransformToBLADEItem ⟨1700000000, "2023-11-14T22:13:20Z"⟩
        ⟨1700000000, "2023-11-14T22:13:20Z"⟩ ⟨1700000000, "2023-11-14T22:13:20Z"⟩ "sortie"
        [("classification", .number 3),
          ("flight_hours", .unsupported "json: unsupported value: NaN")]
      = .ok item := by
  refine ⟨?_, rfl, ?_⟩
  · intro s hs
    simp [lookup_cons_self] at hs
  · rintro ⟨item, hitem⟩
    have herr : TransformToBLADEItem ⟨1700000000, "2023-11-14T22:13:20Z"⟩
        ⟨1700000000, "2023-11-14T22:13:20Z"⟩ ⟨1700000000, "2023-11-14T22:13:20Z"⟩ "sortie"
        [("classification", .number 3),
          ("flight_hours", .unsupported "json: unsupported value: NaN")]
        = .error "failed to marshal data: json: unsupported value: NaN" := rfl
    rw [herr] at hitem
    cases hitem

/-- C9 (counterexample): the item `TransformToBLADEItem` returns for a
maintenance row has a JSON object as Metadata in which the key `importTime`
is absent. -/
theorem transform_metadata_lacks_importTime :
    ∃ item kvs, TransformToBLADEItem ⟨1700000000, "2023-11-14T22:13:20Z"⟩
        ⟨1700000000, "2023-11-14T22:13:20Z"⟩ ⟨1700000000, "2023-11-14T22:13:20Z"⟩ "maintenance"
        [("item_id", .str "M-1")] = .ok item
      ∧ item.Metadata = .doc (.obj kvs)
      ∧ kvs.lookup "importTime" = none :=
  ⟨_, _, transform_of_encodable _ _ _ _ _ (by decide), rfl, rfl⟩

/-- C9 (amended): for every data type and every row on which
`TransformToBLADEItem` succeeds, the item's Metadata is a JSON object with
exactly the two keys `source`, holding "databricks", and `import_time`,
holding the RFC 3339 text of the clock reading; the key `importTime` is
absent. -/
theorem transform_metadata_keys (idNow modNow metaNow : Time) (dataType : String)
    (rawData : List (String × GoValue)) (item : BLADEItem)
    (hok : TransformToBLADEItem idNow modNow metaNow dataType rawData = .ok item) :
    ∃ kvs, item.Metadata = .doc (.obj kvs)
      ∧ kvs.map Prod.fst = ["source", "import_time"]
      ∧ kvs.lookup "source" = some (.str "databricks")
      ∧ kvs.lookup "import_time" = some (.str metaNow.rfc3339)
      ∧ kvs.lookup "importTime" = none := by
  cases henc : GoValue.encodableFields rawData with
  | false =>
    obtain ⟨err, _, herr⟩ := transform_of_not_encodable idNow modNow metaNow dataType rawData henc
    rw [herr] at hok
    cases hok
  | true =>
    rw [transform_of_encodable idNow modNow metaNow dataType rawData henc] at hok
    injection hok with hitem
    subst hitem
    exact ⟨_, rfl, rfl, rfl, rfl, rfl⟩

theorem transform_metadata_keys_witness :
    TransformToBLADEItem ⟨1700000000, "2023-11-14T22:13:20Z"⟩
        ⟨1700000001, "2023-11-14T22:13:21Z"⟩ ⟨1700000002, "2023-11-14T22:13:22Z"⟩ "maintenance"
        [("item_id", .str "M-1")]
      = .ok { ItemID := "M-1", DataType := "maintenance",
              Data := .doc (.obj [("item_id", .str "M-1")]),
              ClassificationMarking := "UNCLASSIFIED",
              LastModified := ⟨1700000001, "2023-11-14T22:13:21Z"⟩,
              Metadata := .doc (.obj [("source", .str "databricks"),
                ("import_time", .str "2023-11-14T22:13:22Z")]) }
    ∧ ∃ kvs, (JSON.doc (.obj [("source", .str "databricks"),
          ("import_time", .str "2023-11-14T22:13:22Z")])) = .doc (.obj kvs)
      ∧ kvs.map Prod.fst = ["source", "import_time"]
      ∧ kvs.lookup "source" = some (.str "databricks")
      ∧ kvs.lookup "import_time" = some (.str "2023-11-14T22:13:22Z")
      ∧ kvs.lookup "importTime" = none :=
  ⟨rfl, transform_metadata_keys ⟨1700000000, "2023-11-14T22:13:20Z"⟩
    ⟨1700000001, "2023-11-14T22:13:21Z"⟩ ⟨1700000002, "2023-11-14T22:13:22Z"⟩ "maintenance"
    [("item_id", .str "M-1")]
    { ItemID := "M-1", DataType := "maintenance",
      Data := .doc (.obj [("item_id", .str "M-1")]),
      ClassificationMarking := "UNCLASSIFIED",
      LastModified := ⟨1700000001, "2023-11-14T22:13:21Z"⟩,
      Metadata := .doc (.obj [("source", .str "databricks"),
          ("import_time", .str "2023-11-14T22:13:22Z")]) }
    rfl⟩

/-- C3: for every config, filter and limit, the statement of
`GetDatabricksQuery` names, after the schema and ".", exactly the table
"blade_<dataType>_data" when the data type is not a key of DataTypeMapping,
and exactly the mapped table when it is a key. -/
theorem getDatabricksQuery_table (c : Config) (dataType filter : String) (limit : Int) :
    (c.DataTypeMapping.lookup dataType = none →
      c.GetDatabricksQuery dataType filter limit =
        "SELECT * FROM " ++ c.DBSchema ++ "." ++ ("blade_" ++ dataType ++ "_data")
          ++ (if filter = "" then "" else " WHERE " ++ filter)
          ++ (if limit > 0 then " LIMIT " ++ Sprintf_d limit
              else if c.MaxRecordsPerQuery > 0 then " LIMIT " ++ Sprintf_d c.MaxRecordsPerQuery
              else ""))
    ∧ (∀ t, c.DataTypeMapping.lookup dataType = some t →
      c.GetDatabricksQuery dataType filter limit =
        "SELECT * FROM " ++ c.DBSchema ++ "." ++ t
          ++ (if filter = "" then "" else " WHERE " ++ filter)
          ++ (if limit > 0 then " LIMIT " ++ Sprintf_d limit
              else if c.MaxRecordsPerQuery > 0 then " LIMIT " ++ Sprintf_d c.MaxRecordsPerQuery
              else "")) := by
  constructor
  · intro h
    rw [getDatabricksQuery_eq, h]
  · intro t h
    rw [getDatabricksQuery_eq, h]

theorem getDatabricksQuery_table_witness :
    Config.GetDatabricksQuery
        { DBSchema := "public", DataTypeMapping := [("maintenance", "blade_maintenance_data")],
          MaxRecordsPerQuery := 1000 } "weather" "" 0
      = "SELECT * FROM public.blade_weather_data LIMIT 1000"
    ∧ Config.GetDatabricksQuery
        { DBSchema := "public", DataTypeMapping := [("maintenance", "tbl_mx")],
          MaxRecordsPerQuery := 1000 } "maintenance" "" 0
      = "SELECT * FROM public.tbl_mx LIMIT 1000" := by
  constructor
  · rw [(getDatabricksQuery_table
      { DBSchema := "public", DataTypeMapping := [("maintenance", "blade_maintenance_data")],
        MaxRecordsPerQuery := 1000 } "weather" "" 0).1 (by decide)]
    decide
  · rw [(getDatabricksQuery_table
      { DBSchema := "public", DataTypeMapping := [("maintenance", "tbl_mx")],
        MaxRecordsPerQuery := 1000 } "maintenance" "" 0).2 "tbl_mx" (by decide)]
    decide

/-- C4: with `pre` the statement up to and including the optional WHERE
clause, `GetDatabricksQuery` returns `pre` followed by " LIMIT <limit>" when
limit > 0, `pre` followed by " LIMIT <MaxRecordsPerQuery>" when limit <= 0 and
MaxRecordsPerQuery > 0, and `pre` alone, with no LIMIT clause appended,
exactly when both limit and MaxRecordsPerQuery are non-positive. -/
theorem getDatabricksQuery_limit (c : Config) (dataType filter : String) (limit : Int) :
    ∃ pre : String,
      pre = "SELECT * FROM " ++ c.DBSchema ++ "."
          ++ (match c.DataTypeMapping.lookup dataType with
              | some t => t
              | none => "blade_" ++ dataType ++ "_data")
          ++ (if filter = "" then "" else " WHERE " ++ filter)
      ∧ (limit > 0 →
          c.GetDatabricksQuery dataType filter limit = pre ++ " LIMIT " ++ Sprintf_d limit)
      ∧ (limit ≤ 0 → c.MaxRecordsPerQuery > 0 →
          c.GetDatabricksQuery dataType filter limit
            = pre ++ " LIMIT " ++ Sprintf_d c.MaxRecordsPerQuery)
      ∧ (c.GetDatabricksQuery dataType filter limit = pre
          ↔ limit ≤ 0 ∧ c.MaxRecordsPerQuery ≤ 0) := by
  refine ⟨_, rfl, ?_, ?_, ?_⟩
  · intro hl
    rw [getDatabricksQuery_eq]
    simp [hl, String.append_assoc]
  · intro hl hm
    have hl2 : ¬ limit > 0 := not_lt.mpr hl
    rw [getDatabricksQuery_eq]
    simp [hl2, hm, String.append_assoc]
  · rw [getDatabricksQuery_eq, append_eq_self_iff]
    by_cases hl : limit > 0
    · simp only [hl, if_true]
      constructor
      · intro h
        exact absurd h (limit_clause_ne_empty _)
      · intro h
        exact absurd h.1 (not_le.mpr hl)
    · by_cases hm : c.MaxRecordsPerQuery > 0
      · simp only [hl, hm, if_true, if_false]
        constructor
        · intro h
          exact absurd h (limit_clause_ne_empty _)
        · intro h
          exact absurd h.2 (not_le.mpr hm)
      · simp only [hl, hm, if_false]
        exact ⟨fun _ => ⟨not_lt.mp hl, not_lt.mp hm⟩, fun _ => trivial⟩

theorem getDatabricksQuery_limit_witness :
    Config.GetDatabricksQuery
        { DBSchema := "public", DataTypeMapping := [("maintenance", "blade_maintenance_data")],
          MaxRecordsPerQuery := 1000 } "maintenance" "" 10
      = "SELECT * FROM public.blade_maintenance_data LIMIT 10"
    ∧ Config.GetDatabricksQuery
        { DBSchema := "public", DataTypeMapping := [("maintenance", "blade_maintenance_data")],
          MaxRecordsPerQuery := 1000 } "maintenance" "" (-1)
      = "SELECT * FROM public.blade_maintenance_data LIMIT 1000"
    ∧ Config.GetDatabricksQuery
        { DBSchema := "public", DataTypeMapping := [("maintenance", "blade_maintenance_data")],
          MaxRecordsPerQuery := 0 } "maintenance" "" 0
      = "SELECT * FROM public.blade_maintenance_data" := by
  refine ⟨?_, ?_, ?_⟩
  · obtain ⟨pre, hpre, h1, _, _⟩ := getDatabricksQuery_limit
      { DBSchema := "public", DataTypeMapping := [("maintenance", "blade_maintenance_data")],
        MaxRecordsPerQuery := 1000 } "maintenance" "" 10
    rw [h1 (by decide), hpre]
    decide
  · obtain ⟨pre, hpre, _, h2, _⟩ := getDatabricksQuery_limit
      { DBSchema := "public", DataTypeMapping := [("maintenance", "blade_maintenance_data")],
        MaxRecordsPerQuery := 1000 } "maintenance" "" (-1)
    rw [h2 (by decide) (by decide), hpre]
    decide
  · obtain ⟨pre, hpre, _, _, h3⟩ := getDatabricksQuery_limit
      { DBSchema := "public", DataTypeMapping := [("maintenance", "blade_maintenance_data")],
        MaxRecordsPerQuery := 0 } "maintenance" "" 0
    rw [h3.mpr ⟨by decide, by decide⟩, hpre]
    decide

/-- C5: with a non-empty filter `GetDatabricksQuery` returns
"SELECT * FROM <schema>.<table>", then " WHERE " and the filter unchanged,
then the limit clause; with an empty filter it returns
"SELECT * FROM <schema>.<table>" directly followed by the limit clause. -/
theorem getDatabricksQuery_where (c : Config) (dataType filter : String) (limit : Int) :
    (filter ≠ "" →
      c.GetDatabricksQuery dataType filter limit =
        "SELECT * FROM " ++ c.DBSchema ++ "."
          ++ (match c.DataTypeMapping.lookup dataType with
              | some t => t
              | none => "blade_" ++ dataType ++ "_data")
          ++ " WHERE " ++ filter
          ++ (if limit > 0 then " LIMIT " ++ Sprintf_d limit
              else if c.MaxRecordsPerQuery > 0 then " LIMIT " ++ Sprintf_d c.MaxRecordsPerQuery
              else ""))
    ∧ (filter = "" →
      c.GetDatabricksQuery dataType filter limit =
        "SELECT * FROM " ++ c.DBSchema ++ "."
          ++ (match c.DataTypeMapping.lookup dataType with
              | some t => t
              | none => "blade_" ++ dataType ++ "_data")
          ++ (if limit > 0 then " LIMIT " ++ Sprintf_d limit
              else if c.MaxRecordsPerQuery > 0 then " LIMIT " ++ Sprintf_d c.MaxRecordsPerQuery
              else "")) := by
  constructor
  · intro hf
    rw [getDatabricksQuery_eq]
    simp [hf, String.append_assoc]
  · intro hf
    rw [getDatabricksQuery_eq]
    simp [hf]

theorem getDatabricksQuery_where_witness :
    Config.GetDatabricksQuery
        { DBSchema := "public", DataTypeMapping := [("maintenance", "blade_maintenance_data")],
          MaxRecordsPerQuery := 1000 } "maintenance" "priority = 'HIGH'" 10
      = "SELECT * FROM public.blade_maintenance_data WHERE priority = 'HIGH' LIMIT 10"
    ∧ Config.GetDatabricksQuery
        { DBSchema := "public", DataTypeMapping := [("maintenance", "blade_maintenance_data")],
          MaxRecordsPerQuery := 1000 } "maintenance" "" 0
      = "SELECT * FROM public.blade_maintenance_data LIMIT 1000" := by
  constructor
  · rw [(getDatabricksQuery_where
      { DBSchema := "public", DataTypeMapping := [("maintenance", "blade_maintenance_data")],
        MaxRecordsPerQuery := 1000 } "maintenance" "priority = 'HIGH'" 10).1 (by decide)]
    decide
  · rw [(getDatabricksQuery_where
      { DBSchema := "public", DataTypeMapping := [("maintenance", "blade_maintenance_data")],
        MaxRecordsPerQuery := 1000 } "maintenance" "" 0).2 rfl]
    decide

/-- C6 (counterexample): for a config with an empty DBSchema the statement
is "SELECT * FROM .blade_maintenance_data LIMIT 1000", with a "." in front of
the table, and not the statement that names the bare table. -/
theorem getDatabricksQuery_empty_schema_dot :
    Config.GetDatabricksQuery
        { DBSchema := "", DataTypeMapping := [("maintenance", "blade_maintenance_data")],
          MaxRecordsPerQuery := 1000 } "maintenance" "" 0
      = "SELECT * FROM .blade_maintenance_data LIMIT 1000"
    ∧ Config.GetDatabricksQuery
        { DBSchema := "", DataTypeMapping := [("maintenance", "blade_maintenance_data")],
          MaxRecordsPerQuery := 1000 } "maintenance" "" 0
      ≠ "SELECT * FROM blade_maintenance_data LIMIT 1000" := by
  constructor <;> decide

/-- C6 (amended): `GetDatabricksQuery` qualifies the table without a case
distinction: for every config the FROM clause is DBSchema, ".", and the table,
which for a non-empty DBSchema is "<DBSchema>.<table>"; and every config that
`LoadConfig` returns has a non-empty DBSchema (it defaults to "public"). -/
theorem getDatabricksQuery_schema (c : Config) (dataType filter : String) (limit : Int)
    (env : Env) :
    c.GetDatabricksQuery dataType filter limit =
        "SELECT * FROM "
          ++ (c.DBSchema ++ "."
              ++ (match c.DataTypeMapping.lookup dataType with
                  | some t => t
                  | none => "blade_" ++ dataType ++ "_data"))
          ++ (if filter = "" then "" else " WHERE " ++ filter)
          ++ (if limit > 0 then " LIMIT " ++ Sprintf_d limit
              else if c.MaxRecordsPerQuery > 0 then " LIMIT " ++ Sprintf_d c.MaxRecordsPerQuery
              else "")
    ∧ (∀ cfg, LoadConfig env = .ok cfg → cfg.DBSchema ≠ "")
    ∧ (env.Getenv "DB_SCHEMA_NAME" = "" →
        ∀ cfg, LoadConfig env = .ok cfg → cfg.DBSchema = "public") := by
  refine ⟨?_, ?_, ?_⟩
  · rw [getDatabricksQuery_eq]
    simp [String.append_assoc]
  · intro cfg hcfg
    unfold LoadConfig at hcfg
    dsimp only at hcfg
    split at hcfg
    · cases hcfg
    · injection hcfg with hc
      subst hc
      exact getEnvOrDefault_ne_empty env "DB_SCHEMA_NAME" "public" (by decide)
  · intro hunset cfg hcfg
    unfold LoadConfig at hcfg
    dsimp only at hcfg
    split at hcfg
    · cases hcfg
    · injection hcfg with hc
      subst hc
      simp [getEnvOrDefault, hunset]

theorem getDatabricksQuery_schema_witness :
    (∃ cfg, LoadConfig
        { Getenv := fun k => if k = "APP_DB_ADMIN_PASSWORD" then "test-password" else "",
          Atoi := fun _ => none, ParseBool := fun _ => none, ParseDuration := fun _ => none }
        = .ok cfg ∧ cfg.DBSchema = "public")
    ∧ Config.GetDatabricksQuery
        { DBSchema := "public", DataTypeMapping := [("maintenance", "blade_maintenance_data")],
          MaxRecordsPerQuery := 1000 } "maintenance" "" 0
      = "SELECT * FROM public.blade_maintenance_data LIMIT 1000" := by
  have h := getDatabricksQuery_schema
    { DBSchema := "public", DataTypeMapping := [("maintenance", "blade_maintenance_data")],
      MaxRecordsPerQuery := 1000 } "maintenance" "" 0
    { Getenv := fun k => if k = "APP_DB_ADMIN_PASSWORD" then "test-password" else "",
      Atoi := fun _ => none, ParseBool := fun _ => none, ParseDuration := fun _ => none }
  refine ⟨⟨_, rfl, h.2.2 (by decide) _ rfl⟩, ?_⟩
  rw [h.1]
  decide

/-- C10: whenever the catalog answers the existence request with a response,
`CheckItemExists` returns (true, no error) exactly when the status is 200,
(false, no error) exactly when the status is 404, and (false, an error) for
every other status; so the decision "upload iff not-exists and no error" is
upload exactly on 404, skip without error exactly on 200, and no upload with
an error on every other status. -/
theorem checkItemExists_by_status (http_NewRequest : String → String → Except String Request)
    (cu : CatalogUploader) (dataType itemID : String) (req : Request) (resp : Response)
    (hreq : http_NewRequest "GET"
        (cu.catalogURL ++ "/catalog/exists?source=" ++ dataType ++ "&id=" ++ itemID) = .ok req)
    (hdo : cu.httpClient (req.setHeader "Authorization" ("Bearer " ++ cu.authToken)) = .ok resp) :
    (cu.CheckItemExists http_NewRequest dataType itemID = (true, none)
        ↔ resp.StatusCode = 200)
    ∧ (cu.CheckItemExists http_NewRequest dataType itemID = (false, none)
        ↔ resp.StatusCode = 404)
    ∧ (resp.StatusCode ≠ 200 → resp.StatusCode ≠ 404 →
        cu.CheckItemExists http_NewRequest dataType itemID
          = (false, some ("unexpected status code: " ++ Sprintf_d resp.StatusCode)))
    ∧ ((cu.CheckItemExists http_NewRequest dataType itemID).2 ≠ none
        ↔ (resp.StatusCode ≠ 200 ∧ resp.StatusCode ≠ 404))
    ∧ (((cu.CheckItemExists http_NewRequest dataType itemID).1 = false
          ∧ (cu.CheckItemExists http_NewRequest dataType itemID).2 = none)
        ↔ resp.StatusCode = 404)
    ∧ (((cu.CheckItemExists http_NewRequest dataType itemID).1 = true
          ∧ (cu.CheckItemExists http_NewRequest dataType itemID).2 = none)
        ↔ resp.StatusCode = 200) := by
  have hval : cu.CheckItemExists http_NewRequest dataType itemID =
      if resp.StatusCode = 200 then (true, none)
      else if resp.StatusCode = 404 then (false, none)
      else (false, some ("unexpected status code: " ++ Sprintf_d resp.StatusCode)) := by
    unfold CatalogUploader.CheckItemExists
    simp only [hreq, hdo, StatusOK, StatusNotFound]
  rw [hval]
  by_cases h200 : resp.StatusCode = 200
  · have h404 : resp.StatusCode ≠ 404 := by rw [h200]; decide
    simp [h200]
  · by_cases h404 : resp.StatusCode = 404
    · simp [h404]
    · simp [h200, h404]

theorem checkItemExists_by_status_witness :
    CatalogUploader.CheckItemExists (fun m u => .ok { Method := m, URL := u })
        { catalogURL := "http://localhost:8092", authToken := "t",
          httpClient := fun _ => .ok { StatusCode := 503 } } "maintenance" "M-1"
      = (false, some "unexpected status code: 503") := by
  have h := (checkItemExists_by_status (fun m u => .ok { Method := m, URL := u })
    { catalogURL := "http://localhost:8092", authToken := "t",
      httpClient := fun _ => .ok { StatusCode := 503 } } "maintenance" "M-1"
    { Method := "GET", URL := "http://localhost:8092/catalog/exists?source=maintenance&id=M-1" }
    { StatusCode := 503 } rfl rfl).2.2.1 (by decide) (by decide)
  rw [h]
  decide

/-- C11: `validateConfig` returns no error if and only if DBPassword,
MockDatabricksURL and CatalogURL are all non-empty and MaxRecordsPerQuery and
CatalogBatchSize are both positive; when DBPassword is empty the error is the
password error, whose message contains "password", whatever the other
fields hold. -/
theorem validateConfig_iff (c : Config) :
    (validateConfig c = none ↔
      c.DBPassword ≠ "" ∧ c.MockDatabricksURL ≠ "" ∧ c.CatalogURL ≠ ""
        ∧ 0 < c.MaxRecordsPerQuery ∧ 0 < c.CatalogBatchSize)
    ∧ (c.DBPassword = "" →
        validateConfig c = some "database password (APP_DB_ADMIN_PASSWORD) is required"
        ∧ ∃ msg pre post, validateConfig c = some msg ∧ msg = pre ++ "password" ++ post) := by
  constructor
  · unfold validateConfig
    by_cases h1 : c.DBPassword = ""
    · simp [h1]
    · by_cases h2 : c.MockDatabricksURL = ""
      · simp [h1, h2]
      · by_cases h3 : c.CatalogURL = ""
        · simp [h1, h2, h3]
        · by_cases h4 : c.MaxRecordsPerQuery ≤ 0
          · simp [h1, h2, h3, h4, not_lt.mpr h4]
          · by_cases h5 : c.CatalogBatchSize ≤ 0
            · simp [h1, h2, h3, h4, h5, not_lt.mpr h5]
            · simp [h1, h2, h3, h4, h5, not_le.mp h4, not_le.mp h5]
  · intro h
    have hv : validateConfig c
        = some "database password (APP_DB_ADMIN_PASSWORD) is required" := by
      simp [validateConfig, h]
    exact ⟨hv, _, "database ", " (APP_DB_ADMIN_PASSWORD) is required", hv, by decide⟩

theorem validateConfig_iff_witness :
    validateConfig
        { MockDatabricksURL := "http://test", CatalogURL := "http://test",
          MaxRecordsPerQuery := 100, CatalogBatchSize := 10 }
      = some "database password (APP_DB_ADMIN_PASSWORD) is required"
    ∧ validateConfig
        { DBPassword := "password", MockDatabricksURL := "http://test",
          CatalogURL := "http://test", MaxRecordsPerQuery := 100, CatalogBatchSize := 10 }
      = none :=
  ⟨((validateConfig_iff
      { MockDatabricksURL := "http://test", CatalogURL := "http://test",
        MaxRecordsPerQuery := 100, CatalogBatchSize := 10 }).2 rfl).1,
   (validateConfig_iff
      { DBPassword := "password", MockDatabricksURL := "http://test",
        CatalogURL := "http://test", MaxRecordsPerQuery := 100, CatalogBatchSize := 10 }).1.mpr
     ⟨by decide, by decide, by decide, by decide, by decide⟩⟩

/-- C12: `TransformToBLADEItem` returns an item, and no error, exactly on the
rows `json.Marshal` accepts, with or without the optional entries "item_id"
and "classification" (the row with no entries at all included); it returns
an error, and no item, exactly on the rows that cannot be encoded, and the
error is the error of `json.Marshal` on the row behind the prefix
"failed to marshal data: ". -/
theorem transform_ok_iff_encodable (idNow modNow metaNow : Time) (dataType : String)
    (rawData : List (String × GoValue)) :
    ((∃ item, TransformToBLADEItem idNow modNow metaNow dataType rawData = .ok item)
        ↔ GoValue.encodableFields rawData = true)
    ∧ ((∃ err, TransformToBLADEItem idNow modNow metaNow dataType rawData = .error err)
        ↔ GoValue.encodableFields rawData = false)
    ∧ (GoValue.encodableFields rawData = false →
        ∃ err, json_Marshal rawData = .error err
          ∧ TransformToBLADEItem idNow modNow metaNow dataType rawData
              = .error ("failed to marshal data: " ++ err))
    ∧ (GoValue.encodableFields rawData = true →
        rawData.lookup "item_id" = none → rawData.lookup "classification" = none →
        ∃ item, TransformToBLADEItem idNow modNow metaNow dataType rawData = .ok item
          ∧ item.ItemID = dataType ++ "-" ++ Sprintf_d idNow.unix
          ∧ item.ClassificationMarking = GetDefaultClassification dataType)
    ∧ (∃ item, TransformToBLADEItem idNow modNow metaNow dataType [] = .ok item) := by
  have hempty : ∃ item, TransformToBLADEItem idNow modNow metaNow dataType [] = .ok item :=
    ⟨_, transform_of_encodable idNow modNow metaNow dataType [] rfl⟩
  cases henc : GoValue.encodableFields rawData with
  | true =>
    have hok := transform_of_encodable idNow modNow metaNow dataType rawData henc
    refine ⟨⟨fun _ => rfl, fun _ => ⟨_, hok⟩⟩, ⟨?_, fun h => (by cases h)⟩,
      fun h => (by cases h), ?_, hempty⟩
    · rintro ⟨err, herr⟩
      rw [hok] at herr
      cases herr
    · intro _ hid hcls
      refine ⟨_, hok, ?_, ?_⟩
      · simp [stringEntry, hid]
      · simp [stringEntry, hcls]
  | false =>
    obtain ⟨err, hmarshal, herr⟩ :=
      transform_of_not_encodable idNow modNow metaNow dataType rawData henc
    refine ⟨⟨?_, fun h => (by cases h)⟩, ⟨fun _ => rfl, fun _ => ⟨_, herr⟩⟩,
      fun _ => ⟨err, hmarshal, herr⟩, fun h => (by cases h), hempty⟩
    rintro ⟨item, hitem⟩
    rw [herr] at hitem
    cases hitem

theorem transform_ok_iff_encodable_witness :
    TransformToBLADEItem ⟨1700000000, "2023-11-14T22:13:20Z"⟩
        ⟨1700000001, "2023-11-14T22:13:21Z"⟩ ⟨1700000002, "2023-11-14T22:13:22Z"⟩ "maintenance"
        [("item_id", .str "M-1"), ("callback", .unsupported "json: unsupported type: chan int")]
      = .error "failed to marshal data: json: unsupported type: chan int"
    ∧ ∃ item, TransformToBLADEItem ⟨1700000000, "2023-11-14T22:13:20Z"⟩
        ⟨1700000001, "2023-11-14T22:13:21Z"⟩ ⟨1700000002, "2023-11-14T22:13:22Z"⟩ "maintenance"
        [("aircraft_tail", .str "AF-101")] = .ok item
      ∧ item.ItemID = "maintenance" ++ "-" ++ Sprintf_d 1700000000
      ∧ item.ClassificationMarking = GetDefaultClassification "maintenance" := by
  constructor
  · obtain ⟨err, hmarshal, herr⟩ :=
      (transform_ok_iff_encodable ⟨1700000000, "2023-11-14T22:13:20Z"⟩
        ⟨1700000001, "2023-11-14T22:13:21Z"⟩ ⟨1700000002, "2023-11-14T22:13:22Z"⟩ "maintenance"
        [("item_id", .str "M-1"),
          ("callback", .unsupported "json: unsupported type: chan int")]).2.2.1 (by decide)
    have he : err = "json: unsupported type: chan int" := by
      have h2 : json_Marshal [("item_id", GoValue.str "M-1"),
          ("callback", GoValue.unsupported "json: unsupported type: chan int")]
          = .error "json: unsupported type: chan int" := rfl
      rw [h2] at hmarshal
      injection hmarshal with h3
      exact h3.symm
    rw [herr, he]
    rfl
  · exact (transform_ok_iff_encodable ⟨1700000000, "2023-11-14T22:13:20Z"⟩
      ⟨1700000001, "2023-11-14T22:13:21Z"⟩ ⟨1700000002, "2023-11-14T22:13:22Z"⟩ "maintenance"
      [("aircraft_tail", .str "AF-101")]).2.2.2.1 (by decide) rfl rfl

/-- C13: for every config and every string, `IsBLADEDataType` is true if and
only if the string is an element of BLADEDataTypes; for every config that
`LoadConfig` returns it is true exactly for maintenance, sortie, deployment
and logistics, and false for every other string. -/
theorem isBLADEDataType_iff (c : Config) (dataType : String) (env : Env) :
    (c.IsBLADEDataType dataType = true ↔ dataType ∈ c.BLADEDataTypes)
    ∧ (∀ cfg, LoadConfig env = .ok cfg →
        (cfg.IsBLADEDataType dataType = true ↔
          dataType = "maintenance" ∨ dataType = "sortie" ∨ dataType = "deployment"
            ∨ dataType = "logistics")
        ∧ (dataType ≠ "maintenance" → dataType ≠ "sortie" → dataType ≠ "deployment" →
            dataType ≠ "logistics" → cfg.IsBLADEDataType dataType = false)) := by
  have hiff : ∀ cfg : Config, cfg.IsBLADEDataType dataType = true
      ↔ dataType ∈ cfg.BLADEDataTypes :=
    fun cfg => isBLADEDataTypeLoop_iff dataType cfg.BLADEDataTypes
  refine ⟨hiff c, ?_⟩
  intro cfg hcfg
  have hfour : cfg.IsBLADEDataType dataType = true ↔
      dataType = "maintenance" ∨ dataType = "sortie" ∨ dataType = "deployment"
        ∨ dataType = "logistics" := by
    rw [hiff cfg, loadConfig_dataTypes env cfg hcfg]
    simp
  refine ⟨hfour, ?_⟩
  intro h1 h2 h3 h4
  cases hb : cfg.IsBLADEDataType dataType with
  | false => rfl
  | true =>
    rcases hfour.mp hb with h | h | h | h
    · exact absurd h h1
    · exact absurd h h2
    · exact absurd h h3
    · exact absurd h h4

theorem isBLADEDataType_iff_witness :
    ∃ cfg, LoadConfig
        { Getenv := fun k => if k = "APP_DB_ADMIN_PASSWORD" then "test-password" else "",
          Atoi := fun _ => none, ParseBool := fun _ => none, ParseDuration := fun _ => none }
        = .ok cfg
      ∧ cfg.IsBLADEDataType "invalid" = false
      ∧ cfg.IsBLADEDataType "maintenance" = true := by
  refine ⟨_, rfl, ?_, ?_⟩
  · exact ((isBLADEDataType_iff {} "invalid"
      { Getenv := fun k => if k = "APP_DB_ADMIN_PASSWORD" then "test-password" else "",
        Atoi := fun _ => none, ParseBool := fun _ => none, ParseDuration := fun _ => none }).2
      _ rfl).2 (by decide) (by decide) (by decide) (by decide)
  · decide

/-- C15: for every item and source string, `BuildMetadata` returns a map that
binds the keys dataType, itemId, classification, source and importTime; when
the item's Metadata is a JSON object, every key the object binds holds the
object's value in the result (so an object with "source" overrides the source
argument) and every other key holds its computed value; when the Metadata is
not a JSON object the result is the computed map. -/
theorem buildMetadata_merge (Format : Time → String → String) (item : BLADEItem)
    (source : String) :
    (∀ k, k ∈ ["dataType", "itemId", "classification", "source", "importTime"] →
        (List.lookup k (BuildMetadata Format item source)).isSome = true)
    ∧ (∀ kvs, item.Metadata = .doc (.obj kvs) → ∀ k v, List.lookup k kvs = some v →
        List.lookup k (BuildMetadata Format item source) = some v)
    ∧ (∀ kvs v, item.Metadata = .doc (.obj kvs) → List.lookup "source" kvs = some v →
        List.lookup "source" (BuildMetadata Format item source) = some v)
    ∧ (∀ kvs, item.Metadata = .doc (.obj kvs) → ∀ k, List.lookup k kvs = none →
        List.lookup k (BuildMetadata Format item source)
          = List.lookup k
              [ ("dataType", GoValue.str item.DataType),
                ("itemId", GoValue.str item.ItemID),
                ("classification", GoValue.str item.ClassificationMarking),
                ("source", GoValue.str source),
                ("importTime", GoValue.str (Format item.CreatedAt "2006-01-02T15:04:05Z")) ])
    ∧ ((∀ kvs, item.Metadata ≠ .doc (.obj kvs)) →
        BuildMetadata Format item source
          = [ ("dataType", GoValue.str item.DataType),
              ("itemId", GoValue.str item.ItemID),
              ("classification", GoValue.str item.ClassificationMarking),
              ("source", GoValue.str source),
              ("importTime", GoValue.str (Format item.CreatedAt "2006-01-02T15:04:05Z")) ]) := by
  have hobj : ∀ kvs, item.Metadata = .doc (.obj kvs) → ∀ k v, List.lookup k kvs = some v →
      List.lookup k (BuildMetadata Format item source) = some v := by
    intro kvs hm k v hk
    rw [buildMetadata_lookup_of_obj Format item source kvs hm k, hk]
  have habs : ∀ kvs, item.Metadata = .doc (.obj kvs) → ∀ k, List.lookup k kvs = none →
      List.lookup k (BuildMetadata Format item source)
        = List.lookup k (computedMetadata Format item source) := by
    intro kvs hm k hk
    rw [buildMetadata_lookup_of_obj Format item source kvs hm k, hk]
  refine ⟨?_, hobj, fun kvs v hm hk => hobj kvs hm "source" v hk, habs,
    buildMetadata_of_not_obj Format item source⟩
  intro k hk
  by_cases hm : ∃ kvs, item.Metadata = .doc (.obj kvs)
  · obtain ⟨kvs, hkvs⟩ := hm
    cases hl : List.lookup k kvs with
    | some v => rw [hobj kvs hkvs k v hl]; rfl
    | none =>
      rw [habs kvs hkvs k hl]
      exact computedMetadata_keys Format item source k hk
  · have hno : ∀ kvs, item.Metadata ≠ .doc (.obj kvs) := fun kvs h => hm ⟨kvs, h⟩
    rw [buildMetadata_of_not_obj Format item source hno]
    exact computedMetadata_keys Format item source k hk

theorem buildMetadata_merge_witness :
    List.lookup "source"
        (BuildMetadata (fun _ _ => "2023-11-14T22:13:20Z")
          { ItemID := "M-1", DataType := "maintenance",
            ClassificationMarking := "UNCLASSIFIED",
            Metadata := .doc (.obj [("source", .str "databricks"),
              ("import_time", .str "2023-11-14T22:13:22Z")]) } "catalog-sync")
      = some (.str "databricks")
    ∧ List.lookup "itemId"
        (BuildMetadata (fun _ _ => "2023-11-14T22:13:20Z")
          { ItemID := "M-1", DataType := "maintenance",
            ClassificationMarking := "UNCLASSIFIED",
            Metadata := .doc (.obj [("source", .str "databricks"),
              ("import_time", .str "2023-11-14T22:13:22Z")]) } "catalog-sync")
      = some (.str "M-1") := by
  have h := buildMetadata_merge (fun _ _ => "2023-11-14T22:13:20Z")
    { ItemID := "M-1", DataType := "maintenance",
      ClassificationMarking := "UNCLASSIFIED",
      Metadata := .doc (.obj [("source", .str "databricks"),
        ("import_time", .str "2023-11-14T22:13:22Z")]) } "catalog-sync"
  refine ⟨h.2.2.1 _ _ rfl rfl, ?_⟩
  rw [h.2.2.2.1 _ rfl "itemId" rfl]
  rfl

end Blade
